import Mathlib

/-
Verification of the sync orchestration engine of the xiaohongshu repository.

Each section shallowly embeds one component of the backend:

* `DelayManager`   — backend/app/services/sync/delay_manager.py
* `LogCollector`   — backend/app/services/sync/log_collector.py
* `MediaQueue`     — backend/app/services/sync/media_queue.py
* `NoteMerge`      — the update branches of `SyncService._save_note` and
                     `SyncService._bulk_save_notes` (backend/app/services/sync_service.py)
* `Heartbeat`      — `SyncService.cleanup_stale_tasks`
* `RunSync`        — the top-level exception guard of `SyncService._run_sync`

Python floats are modelled as rationals, timestamps as integers passed
explicitly (`datetime.utcnow()` becomes a `now` parameter), and fallible
or random inputs (jitter, clock readings) become explicit arguments.
-/

set_option maxHeartbeats 1000000

namespace Xhs

/-! ## DelayManager: backend/app/services/sync/delay_manager.py -/

namespace DelayManager

/-- State and configuration of `AdaptiveDelayManager` (delay_manager.py, `__init__`).
Configuration fields (`min_delay` … `recovery_factor`) are set at construction
and never mutated; `current_delay`, `consecutive_success` and
`rate_limit_count` are the mutable state guarded by `self._lock`. -/
structure AdaptiveDelayManager where
  min_delay : ℚ
  max_delay : ℚ
  initial_delay : ℚ
  backoff_factor : ℚ
  recovery_threshold : ℕ
  recovery_factor : ℚ
  current_delay : ℚ
  consecutive_success : ℕ
  rate_limit_count : ℕ
  deriving DecidableEq

/-- Embeds `AdaptiveDelayManager.__init__` with explicit parameters:
`_current_delay = initial_delay`, counters start at zero. -/
def mkManager (mn mx ini bo : ℚ) (rt : ℕ) (rf : ℚ) : AdaptiveDelayManager :=
  { min_delay := mn
    max_delay := mx
    initial_delay := ini
    backoff_factor := bo
    recovery_threshold := rt
    recovery_factor := rf
    current_delay := ini
    consecutive_success := 0
    rate_limit_count := 0 }

/-- Embeds `AdaptiveDelayManager()` with the default arguments
(min=5.0, max=300.0, initial=30.0, backoff=2.0, threshold=3, recovery=0.7). -/
def defaultManager : AdaptiveDelayManager :=
  mkManager 5 300 30 2 3 (7/10)

/-- Embeds `record_rate_limit` (delay_manager.py lines 67-80):
increment `_rate_limit_count`, zero `_consecutive_success`,
set `_current_delay = min(_current_delay * backoff_factor, max_delay)`. -/
def record_rate_limit (m : AdaptiveDelayManager) : AdaptiveDelayManager :=
  { m with
    rate_limit_count := m.rate_limit_count + 1
    consecutive_success := 0
    current_delay := min (m.current_delay * m.backoff_factor) m.max_delay }

/-- Embeds `record_success` (delay_manager.py lines 82-100):
increment `_consecutive_success`; once it reaches `recovery_threshold`,
set `_current_delay = max(_current_delay * recovery_factor, min_delay)`
and reset the counter. -/
def record_success (m : AdaptiveDelayManager) : AdaptiveDelayManager :=
  let c := m.consecutive_success + 1
  if m.recovery_threshold ≤ c then
    { m with
      current_delay := max (m.current_delay * m.recovery_factor) m.min_delay
      consecutive_success := 0 }
  else
    { m with consecutive_success := c }

/-- Embeds `get_delay` (delay_manager.py lines 102-110): returns
`_current_delay * jitter` for a jitter drawn from `uniform(0.8, 1.2)`,
passed here as the explicit argument `j`; the state is not mutated. -/
def get_delay (m : AdaptiveDelayManager) (j : ℚ) : ℚ × AdaptiveDelayManager :=
  (m.current_delay * j, m)

/-- Embeds `get_rate_limit_wait` (delay_manager.py lines 112-122):
`base_wait = _current_delay * 2`,
`extra_wait = min(_rate_limit_count * 15, 120)`,
returns `base_wait + extra_wait + uniform(5, 15)` with the uniform draw
passed as the explicit argument `u`; the state is not mutated. -/
def get_rate_limit_wait (m : AdaptiveDelayManager) (u : ℚ) : ℚ × AdaptiveDelayManager :=
  let base_wait := m.current_delay * 2
  let extra_wait := min ((m.rate_limit_count : ℚ) * 15) 120
  (base_wait + extra_wait + u, m)

/-- Embeds `reset` (delay_manager.py lines 124-130). -/
def reset (m : AdaptiveDelayManager) : AdaptiveDelayManager :=
  { m with
    current_delay := m.initial_delay
    consecutive_success := 0
    rate_limit_count := 0 }

/-- States reachable by the global singleton manager
(`get_adaptive_delay_manager()` constructs `AdaptiveDelayManager()` with the
default arguments; afterwards only the event methods mutate the state). -/
inductive Reachable : AdaptiveDelayManager → Prop
  | init : Reachable defaultManager
  | rl {m : AdaptiveDelayManager} : Reachable m → Reachable (record_rate_limit m)
  | ok {m : AdaptiveDelayManager} : Reachable m → Reachable (record_success m)
  | rst {m : AdaptiveDelayManager} : Reachable m → Reachable (reset m)

/-- The configuration of every reachable state is the default one. -/
def GoodParams (m : AdaptiveDelayManager) : Prop :=
  m.min_delay = 5 ∧ m.max_delay = 300 ∧ m.initial_delay = 30 ∧
  m.backoff_factor = 2 ∧ m.recovery_threshold = 3 ∧ m.recovery_factor = 7/10

/-- Invariant maintained by every event of the delay manager. -/
def Inv (m : AdaptiveDelayManager) : Prop :=
  GoodParams m ∧ 5 ≤ m.current_delay ∧ m.current_delay ≤ 300 ∧
  m.consecutive_success < 3

lemma inv_record_rate_limit {m : AdaptiveDelayManager} (h : Inv m) :
    Inv (record_rate_limit m) := by
  obtain ⟨⟨h1, h2, h3, h4, h5, h6⟩, hlo, hhi, hcs⟩ := h
  refine ⟨⟨h1, h2, h3, h4, h5, h6⟩, ?_, ?_, ?_⟩
  · simp only [record_rate_limit, h2, h4, le_min_iff]
    constructor <;> linarith
  · simp only [record_rate_limit, h2]
    exact min_le_right _ _
  · simp [record_rate_limit]

lemma inv_record_success {m : AdaptiveDelayManager} (h : Inv m) :
    Inv (record_success m) := by
  obtain ⟨⟨h1, h2, h3, h4, h5, h6⟩, hlo, hhi, hcs⟩ := h
  unfold record_success
  by_cases hc : m.recovery_threshold ≤ m.consecutive_success + 1
  · simp only [hc, if_true]
    refine ⟨⟨h1, h2, h3, h4, h5, h6⟩, ?_, ?_, ?_⟩
    · simp only [h1]
      exact le_max_right _ _
    · simp only [h1, h6, max_le_iff]
      constructor <;> nlinarith
    · simp
  · simp only [hc, if_false]
    refine ⟨⟨h1, h2, h3, h4, h5, h6⟩, hlo, hhi, ?_⟩
    simp only
    omega

lemma inv_reset {m : AdaptiveDelayManager} (h : Inv m) : Inv (reset m) := by
  obtain ⟨⟨h1, h2, h3, h4, h5, h6⟩, hlo, hhi, hcs⟩ := h
  exact ⟨⟨h1, h2, h3, h4, h5, h6⟩, by simp [reset, h3]; norm_num,
    by simp [reset, h3]; norm_num, by simp [reset]⟩

lemma inv_default : Inv defaultManager := by
  refine ⟨⟨rfl, rfl, rfl, rfl, rfl, rfl⟩, ?_, ?_, ?_⟩ <;> norm_num [defaultManager, mkManager]

lemma reachable_inv {m : AdaptiveDelayManager} (h : Reachable m) : Inv m := by
  induction h with
  | init => exact inv_default
  | rl _ ih => exact inv_record_rate_limit ih
  | ok _ ih => exact inv_record_success ih
  | rst _ ih => exact inv_reset ih

lemma reachable_iterate_rl {m : AdaptiveDelayManager} (h : Reachable m) (n : ℕ) :
    Reachable (record_rate_limit^[n] m) := by
  induction n with
  | zero => simpa using h
  | succ k ih =>
    rw [Function.iterate_succ_apply']
    exact Reachable.rl ih

lemma reachable_iterate_ok {m : AdaptiveDelayManager} (h : Reachable m) (n : ℕ) :
    Reachable (record_success^[n] m) := by
  induction n with
  | zero => simpa using h
  | succ k ih =>
    rw [Function.iterate_succ_apply']
    exact Reachable.ok ih

lemma success_three {m : AdaptiveDelayManager} (h : Inv m) :
    (record_success^[3] m).current_delay = max (m.current_delay * (7/10)) m.min_delay := by
  obtain ⟨⟨h1, h2, h3, h4, h5, h6⟩, hlo, hhi, hcs⟩ := h
  have hc : m.consecutive_success = 0 ∨ m.consecutive_success = 1 ∨
      m.consecutive_success = 2 := by omega
  show (record_success (record_success (record_success m))).current_delay = _
  rcases hc with hc | hc | hc <;>
    simp [record_success, h5, h6, hc]

/-- Claim C3: from any reachable `DelayState`, every sequence of
`record_rate_limit` calls leaves `current_delay` non-decreasing and bounded
above by `max_delay`; and every run of `recovery_threshold` consecutive
`record_success` calls strictly decreases `current_delay` as long as it is
above `min_delay`, and `current_delay` never falls below `min_delay`. -/
theorem delay_backoff_monotone (m : AdaptiveDelayManager) (h : Reachable m) :
    (∀ n : ℕ,
      (record_rate_limit^[n] m).current_delay ≤
          (record_rate_limit^[n + 1] m).current_delay ∧
        (record_rate_limit^[n] m).current_delay ≤ m.max_delay) ∧
      (m.min_delay < m.current_delay →
        (record_success^[m.recovery_threshold] m).current_delay < m.current_delay) ∧
      (∀ n : ℕ, m.min_delay ≤ (record_success^[n] m).current_delay) := by
  obtain ⟨⟨h1, h2, h3, h4, h5, h6⟩, hlo, hhi, hcs⟩ := reachable_inv h
  refine ⟨?_, ?_, ?_⟩
  · intro n
    obtain ⟨⟨g1, g2, g3, g4, g5, g6⟩, glo, ghi, gcs⟩ :=
      reachable_inv (reachable_iterate_rl h n)
    constructor
    · rw [Function.iterate_succ_apply']
      simp only [record_rate_limit, g2, g4, le_min_iff]
      constructor <;> linarith
    · rw [h2]; exact ghi
  · intro hlt
    rw [h5, success_three ⟨⟨h1, h2, h3, h4, h5, h6⟩, hlo, hhi, hcs⟩]
    rw [h1] at hlt ⊢
    exact max_lt (by nlinarith) hlt
  · intro n
    obtain ⟨⟨g1, g2, g3, g4, g5, g6⟩, glo, ghi, gcs⟩ :=
      reachable_inv (reachable_iterate_ok h n)
    rw [h1]; exact glo

/-- Witness for C3: the theorem applied at the freshly constructed manager. -/
theorem delay_backoff_monotone_witness :
    (record_rate_limit^[2] defaultManager).current_delay ≤
      (record_rate_limit^[2 + 1] defaultManager).current_delay :=
  ((delay_backoff_monotone defaultManager Reachable.init).1 2).1

/-- Claim C7: for every reachable `DelayState` and every jitter draw
`u ∈ [5, 15]`, `get_rate_limit_wait` returns a value in
`[2*current_delay + min(rate_limit_count*15, 120) + 5,
  2*current_delay + min(rate_limit_count*15, 120) + 15]`
and leaves the controller state unchanged. -/
theorem rate_limit_wait_bounds (m : AdaptiveDelayManager) (u : ℚ)
    (hm : Reachable m) (hu1 : 5 ≤ u) (hu2 : u ≤ 15) :
    2 * m.current_delay + min ((m.rate_limit_count : ℚ) * 15) 120 + 5 ≤
        (get_rate_limit_wait m u).1 ∧
      (get_rate_limit_wait m u).1 ≤
        2 * m.current_delay + min ((m.rate_limit_count : ℚ) * 15) 120 + 15 ∧
      (get_rate_limit_wait m u).2 = m := by
  refine ⟨?_, ?_, rfl⟩ <;> simp only [get_rate_limit_wait] <;> linarith

/-- Witness for C7: the theorem applied at the initial manager with jitter 10. -/
theorem rate_limit_wait_bounds_witness :
    2 * defaultManager.current_delay +
          min ((defaultManager.rate_limit_count : ℚ) * 15) 120 + 5 ≤
        (get_rate_limit_wait defaultManager 10).1 ∧
      (get_rate_limit_wait defaultManager 10).1 ≤
        2 * defaultManager.current_delay +
          min ((defaultManager.rate_limit_count : ℚ) * 15) 120 + 15 ∧
      (get_rate_limit_wait defaultManager 10).2 = defaultManager :=
  rate_limit_wait_bounds defaultManager 10 Reachable.init (by decide) (by decide)

end DelayManager

/-! ## LogCollector: backend/app/services/sync/log_collector.py -/

namespace LogCollector

/-- Python `s[:n]` on a string (character slicing). -/
def pyTake (s : String) (n : ℕ) : String := String.mk (s.toList.take n)

/-- The `summary` dict initialised in `SyncLogCollector.__init__`
(log_collector.py lines 65-75). -/
structure Summary where
  total : ℕ
  success : ℕ
  rate_limited : ℕ
  unavailable : ℕ
  missing_field : ℕ
  fetch_failed : ℕ
  token_refresh : ℕ
  media_failed : ℕ
  skipped : ℕ
  deriving DecidableEq

/-- One entry of `self.issues`: the dict built in `add_issue`
(log_collector.py lines 96-107).  Keys that Python only sets when the
corresponding argument is truthy are `Option`s holding `none` otherwise. -/
structure Issue where
  itype : String
  time : ℤ
  note_id : Option String
  message : Option String
  fields : Option (List String)
  extra : Option (List (String × String))
  deriving DecidableEq

/-- State of `SyncLogCollector` (log_collector.py `__init__`).
`datetime.utcnow()` timestamps are integers passed in explicitly. -/
structure SyncLogCollector where
  account_id : ℤ
  sync_mode : String
  start_time : ℤ
  end_time : Option ℤ
  issues : List Issue
  summary : Summary
  deriving DecidableEq

/-- Embeds `SyncLogCollector.MAX_ISSUES`. -/
def MAX_ISSUES : ℕ := 500

/-- Embeds `SyncLogCollector.MAX_MESSAGE_LENGTH`. -/
def MAX_MESSAGE_LENGTH : ℕ := 500

/-- Embeds `SyncLogCollector.__init__(account_id, sync_mode)` at clock reading `now`. -/
def initCollector (account_id : ℤ) (sync_mode : String) (now : ℤ) : SyncLogCollector :=
  { account_id := account_id
    sync_mode := sync_mode
    start_time := now
    end_time := none
    issues := []
    summary :=
      { total := 0, success := 0, rate_limited := 0, unavailable := 0,
        missing_field := 0, fetch_failed := 0, token_refresh := 0,
        media_failed := 0, skipped := 0 } }

/-- The `if issue_type == self.TYPE_*` chain of `add_issue`
(log_collector.py lines 113-125) updating the summary counters.
`auth_error` (and any unknown type) falls through without a counter. -/
def bumpSummary (s : Summary) (issue_type : String) : Summary :=
  if issue_type = "rate_limited" then { s with rate_limited := s.rate_limited + 1 }
  else if issue_type = "unavailable" then { s with unavailable := s.unavailable + 1 }
  else if issue_type = "missing_field" then { s with missing_field := s.missing_field + 1 }
  else if issue_type = "fetch_failed" then { s with fetch_failed := s.fetch_failed + 1 }
  else if issue_type = "token_refresh" then { s with token_refresh := s.token_refresh + 1 }
  else if issue_type = "media_failed" then { s with media_failed := s.media_failed + 1 }
  else s

/-- Embeds `add_issue` (log_collector.py lines 78-125): build the issue dict
(each optional key only when the argument is truthy, the message truncated to
`MAX_MESSAGE_LENGTH`), append it only while `len(self.issues) < MAX_ISSUES`,
then update the summary counters unconditionally. -/
def add_issue (c : SyncLogCollector) (issue_type : String) (note_id : Option String)
    (message : Option String) (fields : Option (List String))
    (extra : Option (List (String × String))) (now : ℤ) : SyncLogCollector :=
  let issue : Issue :=
    { itype := issue_type
      time := now
      note_id := match note_id with
        | some s => if s.isEmpty then none else some s
        | none => none
      message := match message with
        | some s => if s.isEmpty then none else some (pyTake s MAX_MESSAGE_LENGTH)
        | none => none
      fields := match fields with
        | some l => if l.isEmpty then none else some l
        | none => none
      extra := match extra with
        | some l => if l.isEmpty then none else some l
        | none => none }
  { c with
    issues := if c.issues.length < MAX_ISSUES then c.issues ++ [issue] else c.issues
    summary := bumpSummary c.summary issue_type }

/-- Embeds `record_success` (log_collector.py lines 127-130). -/
def record_success (c : SyncLogCollector) : SyncLogCollector :=
  { c with summary := { c.summary with success := c.summary.success + 1 } }

/-- Embeds `record_skipped` (log_collector.py lines 132-135). -/
def record_skipped (c : SyncLogCollector) : SyncLogCollector :=
  { c with summary := { c.summary with skipped := c.summary.skipped + 1 } }

/-- Embeds `set_total` (log_collector.py lines 137-144). -/
def set_total (c : SyncLogCollector) (total : ℕ) : SyncLogCollector :=
  { c with summary := { c.summary with total := total } }

/-- The dict returned by `finalize` (log_collector.py lines 146-160). -/
structure FinalizeResult where
  sync_mode : String
  start_time : ℤ
  end_time : ℤ
  summary : Summary
  issues : List Issue
  deriving DecidableEq

/-- Embeds `finalize` at clock reading `now` (log_collector.py lines 146-160):
stamps `self.end_time = now` and returns a snapshot (summary and issue list
are copied) together with the post-call state. -/
def finalize (c : SyncLogCollector) (now : ℤ) : FinalizeResult × SyncLogCollector :=
  ({ sync_mode := c.sync_mode
     start_time := c.start_time
     end_time := now
     summary := c.summary
     issues := c.issues },
   { c with end_time := some now })

/-- Arguments of one `add_issue` call, with the clock reading it observes. -/
structure AddIssueCall where
  issue_type : String
  note_id : Option String
  message : Option String
  fields : Option (List String)
  extra : Option (List (String × String))
  time : ℤ
  deriving DecidableEq

/-- Apply a sequence of `add_issue` calls in order. -/
def applyCalls : SyncLogCollector → List AddIssueCall → SyncLogCollector
  | c, [] => c
  | c, k :: rest =>
      applyCalls (add_issue c k.issue_type k.note_id k.message k.fields k.extra k.time) rest

/-- Number of calls of a given issue type in a call sequence. -/
def countType (t : String) (calls : List AddIssueCall) : ℕ :=
  (calls.filter (fun k => k.issue_type = t)).length

lemma add_issue_issues_length (c : SyncLogCollector) (t : String) (nid : Option String)
    (msg : Option String) (fl : Option (List String))
    (ex : Option (List (String × String))) (now : ℤ) :
    (add_issue c t nid msg fl ex now).issues.length =
      if c.issues.length < 500 then c.issues.length + 1 else c.issues.length := by
  simp only [add_issue, MAX_ISSUES]
  split <;> simp

lemma add_issue_summary (c : SyncLogCollector) (t : String) (nid : Option String)
    (msg : Option String) (fl : Option (List String))
    (ex : Option (List (String × String))) (now : ℤ) :
    (add_issue c t nid msg fl ex now).summary = bumpSummary c.summary t := rfl

lemma applyCalls_issues_length (calls : List AddIssueCall) (c : SyncLogCollector)
    (h : c.issues.length ≤ 500) :
    (applyCalls c calls).issues.length = min (c.issues.length + calls.length) 500 := by
  induction calls generalizing c with
  | nil => simp [applyCalls]; omega
  | cons k rest ih =>
    rw [applyCalls]
    rw [ih _ (by rw [add_issue_issues_length]; split <;> omega)]
    rw [add_issue_issues_length]
    split <;> (simp only [List.length_cons]; omega)

lemma bumpSummary_counts (s : Summary) (t : String) :
    (bumpSummary s t).rate_limited
        = s.rate_limited + (if t = "rate_limited" then 1 else 0) ∧
      (bumpSummary s t).unavailable
          = s.unavailable + (if t = "unavailable" then 1 else 0) ∧
      (bumpSummary s t).missing_field
          = s.missing_field + (if t = "missing_field" then 1 else 0) ∧
      (bumpSummary s t).fetch_failed
          = s.fetch_failed + (if t = "fetch_failed" then 1 else 0) ∧
      (bumpSummary s t).token_refresh
          = s.token_refresh + (if t = "token_refresh" then 1 else 0) ∧
      (bumpSummary s t).media_failed
          = s.media_failed + (if t = "media_failed" then 1 else 0) := by
  unfold bumpSummary
  split_ifs with h1 h2 h3 h4 h5 h6 <;> simp_all

lemma countType_cons (t : String) (k : AddIssueCall) (rest : List AddIssueCall) :
    countType t (k :: rest) = (if k.issue_type = t then 1 else 0) + countType t rest := by
  by_cases h : k.issue_type = t <;> simp [countType, h] <;> omega

lemma applyCalls_counts (calls : List AddIssueCall) (c : SyncLogCollector) :
    (applyCalls c calls).summary.rate_limited
        = c.summary.rate_limited + countType "rate_limited" calls ∧
      (applyCalls c calls).summary.unavailable
          = c.summary.unavailable + countType "unavailable" calls ∧
      (applyCalls c calls).summary.missing_field
          = c.summary.missing_field + countType "missing_field" calls ∧
      (applyCalls c calls).summary.fetch_failed
          = c.summary.fetch_failed + countType "fetch_failed" calls ∧
      (applyCalls c calls).summary.token_refresh
          = c.summary.token_refresh + countType "token_refresh" calls ∧
      (applyCalls c calls).summary.media_failed
          = c.summary.media_failed + countType "media_failed" calls := by
  induction calls generalizing c with
  | nil => simp [applyCalls, countType]
  | cons k rest ih =>
    rw [applyCalls]
    obtain ⟨i1, i2, i3, i4, i5, i6⟩ := ih
      (add_issue c k.issue_type k.note_id k.message k.fields k.extra k.time)
    obtain ⟨b1, b2, b3, b4, b5, b6⟩ := bumpSummary_counts c.summary k.issue_type
    rw [add_issue_summary] at i1 i2 i3 i4 i5 i6
    rw [b1] at i1; rw [b2] at i2; rw [b3] at i3
    rw [b4] at i4; rw [b5] at i5; rw [b6] at i6
    refine ⟨?_, ?_, ?_, ?_, ?_, ?_⟩
    · rw [i1, countType_cons]; omega
    · rw [i2, countType_cons]; omega
    · rw [i3, countType_cons]; omega
    · rw [i4, countType_cons]; omega
    · rw [i5, countType_cons]; omega
    · rw [i6, countType_cons]; omega

/-- Claim C6: for every sequence of `add_issue` calls of any issue types,
the collector stores at most 500 issue records (the number stored is exactly
`min (number of calls) 500`, i.e. appending stops at the cap), while every
per-type summary counter returned by `finalize` equals the true number of
`add_issue` calls of that type, even beyond the cap. -/
theorem issue_cap_with_accurate_summary (aid : ℤ) (mode : String) (t0 : ℤ)
    (calls : List AddIssueCall) (now : ℤ) :
    ((finalize (applyCalls (initCollector aid mode t0) calls) now).1.issues.length ≤ 500 ∧
        (finalize (applyCalls (initCollector aid mode t0) calls) now).1.issues.length =
          min calls.length 500) ∧
      (finalize (applyCalls (initCollector aid mode t0) calls) now).1.summary.rate_limited =
          countType "rate_limited" calls ∧
      (finalize (applyCalls (initCollector aid mode t0) calls) now).1.summary.unavailable =
          countType "unavailable" calls ∧
      (finalize (applyCalls (initCollector aid mode t0) calls) now).1.summary.missing_field =
          countType "missing_field" calls ∧
      (finalize (applyCalls (initCollector aid mode t0) calls) now).1.summary.fetch_failed =
          countType "fetch_failed" calls ∧
      (finalize (applyCalls (initCollector aid mode t0) calls) now).1.summary.token_refresh =
          countType "token_refresh" calls ∧
      (finalize (applyCalls (initCollector aid mode t0) calls) now).1.summary.media_failed =
          countType "media_failed" calls := by
  have hlen := applyCalls_issues_length calls (initCollector aid mode t0) (by simp [initCollector])
  obtain ⟨c1, c2, c3, c4, c5, c6⟩ := applyCalls_counts calls (initCollector aid mode t0)
  rw [show (initCollector aid mode t0).issues.length = 0 from rfl, Nat.zero_add] at hlen
  rw [show (initCollector aid mode t0).summary.rate_limited = 0 from rfl, Nat.zero_add] at c1
  rw [show (initCollector aid mode t0).summary.unavailable = 0 from rfl, Nat.zero_add] at c2
  rw [show (initCollector aid mode t0).summary.missing_field = 0 from rfl, Nat.zero_add] at c3
  rw [show (initCollector aid mode t0).summary.fetch_failed = 0 from rfl, Nat.zero_add] at c4
  rw [show (initCollector aid mode t0).summary.token_refresh = 0 from rfl, Nat.zero_add] at c5
  rw [show (initCollector aid mode t0).summary.media_failed = 0 from rfl, Nat.zero_add] at c6
  exact ⟨⟨by rw [show (finalize (applyCalls (initCollector aid mode t0) calls) now).1.issues =
        (applyCalls (initCollector aid mode t0) calls).issues from rfl, hlen]; omega,
      hlen⟩, c1, c2, c3, c4, c5, c6⟩

/-- Counterexample to C9 as stated: `finalize` re-stamps `end_time` with
the clock reading of each call, so two consecutive `finalize` calls that
observe different clock values (here 0 and 1) return different results. -/
theorem finalize_restamps_end_time :
    (finalize (initCollector 1 "deep" 0) 0).1 ≠
      (finalize ((finalize (initCollector 1 "deep" 0) 0).2) 1).1 := by
  decide

/-- Claim C9 (amended): for every collector state, two `finalize` calls with
no intervening mutating operation agree on `sync_mode`, `start_time`, the
summary counters and the issue records; `end_time` is re-stamped to each
call's clock reading, so the results are fully equal whenever the two calls
observe the same clock value. -/
theorem finalize_idempotent_amended (c : SyncLogCollector) (t1 t2 : ℤ) :
    (finalize (finalize c t1).2 t2).1.sync_mode = (finalize c t1).1.sync_mode ∧
      (finalize (finalize c t1).2 t2).1.start_time = (finalize c t1).1.start_time ∧
      (finalize (finalize c t1).2 t2).1.summary = (finalize c t1).1.summary ∧
      (finalize (finalize c t1).2 t2).1.issues = (finalize c t1).1.issues ∧
      (t1 = t2 → (finalize (finalize c t1).2 t2).1 = (finalize c t1).1) := by
  refine ⟨rfl, rfl, rfl, rfl, ?_⟩
  intro h
  subst h
  rfl

/-- Witness for C9 (amended), at a concrete collector and equal clock readings. -/
theorem finalize_idempotent_amended_witness :
    (finalize (finalize (initCollector 1 "deep" 0) 5).2 5).1 =
      (finalize (initCollector 1 "deep" 0) 5).1 :=
  (finalize_idempotent_amended (initCollector 1 "deep" 0) 5 5).2.2.2.2 rfl

end LogCollector

/-! ## NoteMerge: the update branches of `SyncService._save_note`
(sync_service.py lines 1985-2039) and `SyncService._bulk_save_notes`
(lines 1721-1764).  The two branches apply the same field-by-field merge
policy to an already-stored row; `applyNoteUpdate` below embeds that shared
logic once. -/

namespace NoteMerge

/-- Python truthiness of an optional string (`None` and `''` are falsy). -/
def truthyStr : Option String → Bool
  | none => false
  | some s => !s.isEmpty

/-- A stored `Note` row, restricted to the fields the update branches touch.
`image_list` and `tags` are persisted as JSON arrays (`json.dumps`); they are
modelled here in parsed form, so `len(json.loads(note.image_list))` is
`note.image_list.length` (an absent/empty column reads as `[]`). -/
structure Note where
  note_id : String
  nickname : String
  avatar : String
  title : String
  desc : String
  type : String
  liked_count : ℤ
  collected_count : ℤ
  comment_count : ℤ
  share_count : ℤ
  upload_time : String
  video_addr : String
  image_list : List String
  tags : List String
  ip_location : String
  cover_remote : String
  cover_local : String
  xsec_token : String
  last_updated : ℤ
  deriving DecidableEq

/-- The incoming `note_data` dict.  Values that Python may hold as `None`
are `Option`s; `none` is `None` and `some \x22\x22` is the empty string. -/
structure NoteData where
  note_id : Option String
  user_id : String
  nickname : String
  avatar : String
  title : String
  desc : Option String
  note_type : String
  liked_count : Option ℤ
  collected_count : Option ℤ
  comment_count : Option ℤ
  share_count : Option ℤ
  upload_time : Option String
  video_addr : Option String
  image_list : Option (List String)
  tags : Option (List String)
  ip_location : Option String
  cover_remote : Option String
  video_cover : Option String
  xsec_token : Option String
  deriving DecidableEq

/-- Cover computation shared by `_save_note` (lines 1973-1976) and
`_bulk_save_notes` (lines 1709-1712):
`cover_remote = note_data.get('cover_remote') or note_data.get('video_cover')`,
falling back to the first entry of `image_list` when still falsy. -/
def computeCoverRemote (nd : NoteData) : Option String :=
  let c0 := if truthyStr nd.cover_remote then nd.cover_remote else nd.video_cover
  if truthyStr c0 then c0
  else
    let imgs := match nd.image_list with
      | some l => l
      | none => []
    match imgs with
    | [] => none
    | x :: _ => some x

/-- The update branch applied to an existing row (identical in
`_save_note` lines 1985-2039 and `_bulk_save_notes` lines 1721-1764):
basic text fields are assigned unconditionally; `desc` only when non-None
and non-empty; the four counters and `upload_time` whenever non-None;
`video_addr`, `tags`, `ip_location`, `cover_remote`, `xsec_token` only when
truthy; `image_list` only when truthy and the new list is longer than the
stored one or the stored one has at most one entry; `cover_local` is bound
to `None` at both call sites (async download) so its guard never fires. -/
def applyNoteUpdate (note : Note) (nd : NoteData) (now : ℤ) : Note :=
  let cover_remote := computeCoverRemote nd
  let cover_local : Option String := none
  { note with
    nickname := nd.nickname
    avatar := nd.avatar
    title := nd.title
    desc := match nd.desc with
      | some s => if s.isEmpty then note.desc else s
      | none => note.desc
    type := nd.note_type
    liked_count := match nd.liked_count with
      | some v => v
      | none => note.liked_count
    collected_count := match nd.collected_count with
      | some v => v
      | none => note.collected_count
    comment_count := match nd.comment_count with
      | some v => v
      | none => note.comment_count
    share_count := match nd.share_count with
      | some v => v
      | none => note.share_count
    upload_time := match nd.upload_time with
      | some s => s
      | none => note.upload_time
    video_addr := match nd.video_addr with
      | some s => if s.isEmpty then note.video_addr else s
      | none => note.video_addr
    image_list := match nd.image_list with
      | some l =>
          if l.isEmpty then note.image_list
          else if note.image_list.length < l.length ∨ note.image_list.length ≤ 1 then l
          else note.image_list
      | none => note.image_list
    tags := match nd.tags with
      | some l => if l.isEmpty then note.tags else l
      | none => note.tags
    ip_location := match nd.ip_location with
      | some s => if s.isEmpty then note.ip_location else s
      | none => note.ip_location
    cover_remote := match cover_remote with
      | some s => if s.isEmpty then note.cover_remote else s
      | none => note.cover_remote
    cover_local := match cover_local with
      | some s => if s.isEmpty then note.cover_local else s
      | none => note.cover_local
    xsec_token := match nd.xsec_token with
      | some s => if s.isEmpty then note.xsec_token else s
      | none => note.xsec_token
    last_updated := now }

/-- Claim C1: for every stored row and every persisted update, the stored
`image_list` is replaced by the incoming list exactly when the incoming list
is non-empty and either strictly longer than the stored list or the stored
list has at most one entry; in every other case (including an empty or
missing incoming list) the stored `image_list` is unchanged. -/
theorem image_list_non_regression (note : Note) (nd : NoteData) (now : ℤ) :
    (∀ l : List String, nd.image_list = some l → l ≠ [] →
        (note.image_list.length < l.length ∨ note.image_list.length ≤ 1) →
        (applyNoteUpdate note nd now).image_list = l) ∧
      ((∀ l : List String, nd.image_list = some l →
          l = [] ∨ (l.length ≤ note.image_list.length ∧ 2 ≤ note.image_list.length)) →
        (applyNoteUpdate note nd now).image_list = note.image_list) := by
  constructor
  · intro l hl hne hcond
    simp only [applyNoteUpdate, hl]
    rw [if_neg (by simpa using hne), if_pos hcond]
  · intro h
    cases him : nd.image_list with
    | none => simp [applyNoteUpdate, him]
    | some l =>
      rcases h l him with hle | ⟨h1, h2⟩
      · simp [applyNoteUpdate, him, hle]
      · by_cases he : l.isEmpty
        · simp [applyNoteUpdate, him, he]
        · simp only [applyNoteUpdate, him]
          rw [if_neg (by simpa using he), if_neg (by omega)]

/-- A stored note with a non-blank `upload_time` and a three-image list. -/
def sampleStoredNote : Note :=
  { note_id := "n1", nickname := "a", avatar := "av", title := "t", desc := "d",
    type := "normal", liked_count := 1, collected_count := 2, comment_count := 3,
    share_count := 4, upload_time := "2024-01-01 10:00", video_addr := "",
    image_list := ["u1", "u2", "u3"], tags := ["tag"], ip_location := "sh",
    cover_remote := "c", cover_local := "", xsec_token := "x", last_updated := 0 }

/-- An incoming update whose `upload_time` is the blank string. -/
def blankTimeUpdate : NoteData :=
  { note_id := some "n1", user_id := "u", nickname := "a", avatar := "av", title := "t",
    desc := none, note_type := "normal", liked_count := none, collected_count := none,
    comment_count := none, share_count := none, upload_time := some "",
    video_addr := none, image_list := none, tags := none, ip_location := none,
    cover_remote := none, video_cover := none, xsec_token := none }

/-- An incoming update carrying a four-image list. -/
def richImageUpdate : NoteData :=
  { blankTimeUpdate with upload_time := none, image_list := some ["v1", "v2", "v3", "v4"] }

/-- Witness for C1: a four-image incoming list replaces a stored three-image list. -/
theorem image_list_non_regression_witness :
    (applyNoteUpdate sampleStoredNote richImageUpdate 1).image_list =
      ["v1", "v2", "v3", "v4"] :=
  (image_list_non_regression sampleStoredNote richImageUpdate 1).1
    ["v1", "v2", "v3", "v4"] rfl (by decide) (by decide)

/-- Counterexample to C2 as stated: both update branches run
`if note_data['upload_time'] is not None: note.upload_time = ...`, so an
incoming blank (empty-string) `upload_time` does overwrite the stored
non-blank value instead of leaving it unchanged. -/
theorem upload_time_blank_overwrites :
    blankTimeUpdate.upload_time = some "" ∧
      (applyNoteUpdate sampleStoredNote blankTimeUpdate 1).upload_time ≠
        sampleStoredNote.upload_time := by
  constructor
  · rfl
  · decide

/-- Claim C2 (amended): the stored `upload_time` is overwritten exactly when
the incoming `upload_time` is non-null — including when it is a blank
string; a null (`None`) incoming value leaves the stored value unchanged. -/
theorem upload_time_merge (note : Note) (nd : NoteData) (now : ℤ) :
    (nd.upload_time = none →
        (applyNoteUpdate note nd now).upload_time = note.upload_time) ∧
      (∀ s : String, nd.upload_time = some s →
        (applyNoteUpdate note nd now).upload_time = s) := by
  constructor
  · intro h
    simp [applyNoteUpdate, h]
  · intro s h
    simp [applyNoteUpdate, h]

/-- Witness for C2 (amended): the blank incoming value lands in the store. -/
theorem upload_time_merge_witness :
    (applyNoteUpdate sampleStoredNote blankTimeUpdate 1).upload_time = "" :=
  (upload_time_merge sampleStoredNote blankTimeUpdate 1).2 "" rfl

end NoteMerge

/-! ## Heartbeat: `SyncService.cleanup_stale_tasks` (sync_service.py lines 634-696) -/

namespace Heartbeat

/-- An `Account` row restricted to the fields `cleanup_stale_tasks` and the
`_run_sync` guard read and write.  `sync_heartbeat` is a nullable UTC
timestamp, modelled in seconds. -/
structure Account where
  id : ℕ
  status : String
  error_message : Option String
  sync_heartbeat : Option ℤ
  deriving DecidableEq

/-- The heartbeat-timeout message written by `cleanup_stale_tasks`
(sync_service.py line 683). -/
def heartbeatTimeoutMsg : String := "同步任务异常终止（心跳超时），请重新开始同步"

/-- The stale-job filter of `cleanup_stale_tasks` (lines 660-666):
`status == 'processing'` and (`sync_heartbeat IS NULL` or
`sync_heartbeat < cutoff_time`), with `cutoff_time = now - timeout_seconds`. -/
def isStale (now timeout : ℤ) (a : Account) : Bool :=
  decide (a.status = "processing") &&
    match a.sync_heartbeat with
    | none => true
    | some hb => decide (hb < now - timeout)

/-- The per-account mutation of the reap loop (lines 682-684). -/
def reapAccount (a : Account) : Account :=
  { a with
    status := "failed"
    error_message := some heartbeatTimeoutMsg
    sync_heartbeat := none }

/-- Embeds `cleanup_stale_tasks(timeout_seconds)` observed at clock reading `now`
(lines 650-691): reap every stale account, leave the rest untouched, and
return the new store together with `cleaned_count`. -/
def cleanup_stale_tasks (now timeout : ℤ) (accounts : List Account) :
    List Account × ℕ :=
  (accounts.map (fun a => if isStale now timeout a then reapAccount a else a),
   (accounts.filter (fun a => isStale now timeout a)).length)

lemma isStale_iff (now timeout : ℤ) (a : Account) :
    isStale now timeout a = true ↔
      a.status = "processing" ∧
        (a.sync_heartbeat = none ∨
          ∀ hb : ℤ, a.sync_heartbeat = some hb → now - hb > timeout) := by
  cases h : a.sync_heartbeat with
  | none => simp [isStale, h]
  | some hb =>
    simp only [isStale, h, Bool.and_eq_true, decide_eq_true_eq]
    constructor
    · rintro ⟨h1, h2⟩
      refine ⟨h1, Or.inr ?_⟩
      intro hb2 he
      injection he with he2
      omega
    · rintro ⟨h1, h2⟩
      rcases h2 with h2 | h2
      · exact absurd h2 (by simp)
      · exact ⟨h1, by have := h2 hb rfl; omega⟩

/-- Claim C4: `cleanup_stale_tasks` with timeout `T` at clock reading `now`
transitions exactly the accounts whose status is `processing` and whose
heartbeat is null or older than `T` to `failed` with the heartbeat-timeout
message and a cleared heartbeat, returns the number of accounts so reaped,
and leaves every other account (fresh heartbeat, or not `processing`)
unchanged. -/
theorem cleanup_stale_spec (now timeout : ℤ) (accounts : List Account) :
    (cleanup_stale_tasks now timeout accounts).1.length = accounts.length ∧
      (cleanup_stale_tasks now timeout accounts).2 =
        (accounts.filter (fun a => isStale now timeout a)).length ∧
      ∀ i : ℕ, ∀ hi : i < accounts.length,
        ∀ ho : i < (cleanup_stale_tasks now timeout accounts).1.length,
        ((accounts.get ⟨i, hi⟩).status = "processing" ∧
            ((accounts.get ⟨i, hi⟩).sync_heartbeat = none ∨
              ∀ hb : ℤ, (accounts.get ⟨i, hi⟩).sync_heartbeat = some hb →
                now - hb > timeout) →
          (cleanup_stale_tasks now timeout accounts).1.get ⟨i, ho⟩ =
            reapAccount (accounts.get ⟨i, hi⟩)) ∧
        (¬((accounts.get ⟨i, hi⟩).status = "processing" ∧
            ((accounts.get ⟨i, hi⟩).sync_heartbeat = none ∨
              ∀ hb : ℤ, (accounts.get ⟨i, hi⟩).sync_heartbeat = some hb →
                now - hb > timeout)) →
          (cleanup_stale_tasks now timeout accounts).1.get ⟨i, ho⟩ =
            accounts.get ⟨i, hi⟩) := by
  refine ⟨by simp [cleanup_stale_tasks], rfl, ?_⟩
  intro i hi ho
  have hget : (cleanup_stale_tasks now timeout accounts).1.get ⟨i, ho⟩ =
      if isStale now timeout (accounts.get ⟨i, hi⟩) then
        reapAccount (accounts.get ⟨i, hi⟩)
      else accounts.get ⟨i, hi⟩ := by
    simp [cleanup_stale_tasks, List.get_map]
  constructor
  · intro hcond
    rw [hget, if_pos ((isStale_iff now timeout _).2 hcond)]
  · intro hcond
    rw [hget, if_neg (fun hs => hcond ((isStale_iff now timeout _).1 hs))]

/-- A concrete batch: one stale processing account, one completed account,
one processing account with a fresh heartbeat. -/
def sampleBatch : List Account :=
  [{ id := 1, status := "processing", error_message := none, sync_heartbeat := some 100 },
   { id := 2, status := "completed", error_message := none, sync_heartbeat := none },
   { id := 3, status := "processing", error_message := none, sync_heartbeat := some 900 }]

/-- Witness for C4: at `now = 1000` with `T = 300`, the account with
heartbeat 100 is reaped. -/
theorem cleanup_stale_spec_witness :
    (cleanup_stale_tasks 1000 300 sampleBatch).1.get ⟨0, by decide⟩ =
      reapAccount (sampleBatch.get ⟨0, by decide⟩) :=
  ((cleanup_stale_spec 1000 300 sampleBatch).2.2 0 (by decide) (by decide)).1
    (by
      refine ⟨rfl, Or.inr ?_⟩
      rintro hb h
      injection h with h2
      omega)

end Heartbeat

/-! ## RunSync: the top-level exception guard of `SyncService._run_sync`
(sync_service.py lines 974-1005) -/

namespace RunSync

open Heartbeat (Account)

/-- The diagnostic message of the guard (line 989):
`"同步线程崩溃: " + str(e)[:200]` — the exception text sliced to 200
characters. -/
def crashMsg (e : String) : String :=
  "同步线程崩溃: " ++ LogCollector.pyTake e 200

/-- The `except` branch of `_run_sync` (lines 984-1002): every account of
the batch (`id IN account_ids`) whose status is still `processing` is set to
`failed` with the truncated diagnostic message and a cleared heartbeat. -/
def crashRecover (account_ids : List ℕ) (e : String) (accounts : List Account) :
    List Account :=
  accounts.map fun a =>
    if a.id ∈ account_ids ∧ a.status = "processing" then
      { a with
        status := "failed"
        error_message := some (crashMsg e)
        sync_heartbeat := none }
    else a

/-- Claim C5: after the top-level exception guard runs for an unhandled
exception `e`, no account of the batch is left in `processing`; every
account of the batch that was `processing` is `failed` with the diagnostic
message (whose length is bounded by the 8-character prefix plus 200
characters) and a cleared heartbeat, and every other account is unchanged. -/
theorem run_sync_crash_guard (ids : List ℕ) (e : String) (accounts : List Account) :
    (∀ a ∈ crashRecover ids e accounts, a.id ∈ ids → a.status ≠ "processing") ∧
      (crashRecover ids e accounts).length = accounts.length ∧
      (crashMsg e).length ≤ 8 + 200 ∧
      ∀ i : ℕ, ∀ hi : i < accounts.length,
        ∀ ho : i < (crashRecover ids e accounts).length,
        ((accounts.get ⟨i, hi⟩).id ∈ ids ∧
            (accounts.get ⟨i, hi⟩).status = "processing" →
          (crashRecover ids e accounts).get ⟨i, ho⟩ =
            { accounts.get ⟨i, hi⟩ with
              status := "failed"
              error_message := some (crashMsg e)
              sync_heartbeat := none }) ∧
        (¬((accounts.get ⟨i, hi⟩).id ∈ ids ∧
            (accounts.get ⟨i, hi⟩).status = "processing") →
          (crashRecover ids e accounts).get ⟨i, ho⟩ = accounts.get ⟨i, hi⟩) := by
  refine ⟨?_, by simp [crashRecover], ?_, ?_⟩
  · intro a ha
    obtain ⟨b, hb, rfl⟩ := List.mem_map.1 ha
    by_cases hc : b.id ∈ ids ∧ b.status = "processing"
    · rw [if_pos hc]
      intro _
      simp
    · rw [if_neg hc]
      intro hid hp
      exact hc ⟨hid, hp⟩
  · have h1 : (crashMsg e).length =
        ("同步线程崩溃: ").length + (LogCollector.pyTake e 200).length :=
      String.length_append _ _
    have h0 : ("同步线程崩溃: ").length = 8 := by decide
    have h2 : (LogCollector.pyTake e 200).length = (e.toList.take 200).length := rfl
    rw [h1, h0, h2, List.length_take]
    omega
  · intro i hi ho
    have hget : (crashRecover ids e accounts).get ⟨i, ho⟩ =
        if (accounts.get ⟨i, hi⟩).id ∈ ids ∧
            (accounts.get ⟨i, hi⟩).status = "processing" then
          { accounts.get ⟨i, hi⟩ with
            status := "failed"
            error_message := some (crashMsg e)
            sync_heartbeat := none }
        else accounts.get ⟨i, hi⟩ := by
      simp [crashRecover, List.get_map]
    constructor
    · intro hcond
      rw [hget, if_pos hcond]
    · intro hcond
      rw [hget, if_neg hcond]

/-- Witness for C5: in the sample batch, a crash of the thread working on
accounts 1 and 2 fails the stale processing account 1. -/
theorem run_sync_crash_guard_witness :
    (crashRecover [1, 2] "boom" Heartbeat.sampleBatch).get ⟨0, by decide⟩ =
      { Heartbeat.sampleBatch.get ⟨0, by decide⟩ with
        status := "failed"
        error_message := some (crashMsg "boom")
        sync_heartbeat := none } :=
  (((run_sync_crash_guard [1, 2] "boom" Heartbeat.sampleBatch).2.2.2
      0 (by decide) (by decide)).1) (by decide)

end RunSync

/-! ## MediaQueue: backend/app/services/sync/media_queue.py and the media
download helpers of sync_service.py -/

namespace MediaQueue

open NoteMerge (truthyStr)

/-- Python `pat in s` for strings: some contiguous slice of `s` equals `pat`. -/
def strContains (s pat : String) : Bool :=
  (List.range (s.toList.length + 1)).any
    (fun i => decide ((s.toList.drop i).take pat.toList.length = pat.toList))

/-- Embeds `img_url.split('/')[-1].split('?')[0]` (media_queue.py line 284,
sync_service.py line 1843). -/
def imgIdOf (img_url : String) : String :=
  (((img_url.splitOn "/").getLastD "").splitOn "?").headD ""

/-- The fallback URL list built per image by `_do_download_all_media`
(media_queue.py lines 282-290): the original URL, then for the two CDN hosts
two deterministic rewrites, else for a bare `ci.xiaohongshu.com` URL one
rewrite. -/
def urlsToTryQueue (img_url : String) : List String :=
  if strContains img_url "sns-img-qc.xhscdn.com" ||
      strContains img_url "sns-img-hw.xhscdn.com" then
    [img_url,
     "https://ci.xiaohongshu.com/" ++ imgIdOf img_url ++ "?imageView2/2/w/format/jpg",
     "https://sns-img-hw.xhscdn.com/" ++ imgIdOf img_url ++ "?imageView2/2/w/format/jpg"]
  else if strContains img_url "ci.xiaohongshu.com" && !strContains img_url "?" then
    [img_url, img_url ++ "?imageView2/2/w/format/jpg"]
  else
    [img_url]

/-- The fallback URL list built per image by
`SyncService._download_single_image` (sync_service.py lines 1840-1850); it
adds a third CDN rewrite for the two hosted CDNs. -/
def urlsToTrySingle (img_url : String) : List String :=
  if strContains img_url "sns-img-qc.xhscdn.com" ||
      strContains img_url "sns-img-hw.xhscdn.com" then
    [img_url,
     "https://ci.xiaohongshu.com/" ++ imgIdOf img_url ++ "?imageView2/2/w/format/jpg",
     "https://sns-img-hw.xhscdn.com/" ++ imgIdOf img_url ++ "?imageView2/2/w/format/jpg",
     "https://sns-img-qc.xhscdn.com/" ++ imgIdOf img_url ++ "?imageView2/2/w/format/jpg"]
  else if strContains img_url "ci.xiaohongshu.com" && !strContains img_url "?" then
    [img_url, img_url ++ "?imageView2/2/w/format/jpg"]
  else
    [img_url]

/-- The `note_data` dict a media download task receives, restricted to the
keys the download code reads.  `none` models an absent/None value. -/
structure MediaNoteData where
  image_list : Option (List String)
  video_addr : Option String
  note_type : Option String
  deriving DecidableEq

/-- Environment oracles of a download run: whether a validly-sized file
already exists at a path, and whether an HTTP GET of a URL succeeds with a
large-enough body.  They stand for the filesystem and network. -/
structure DownloadEnv where
  fileExists : String → Bool
  fetchOk : String → Bool

/-- Embeds `os.path.join(MEDIA_PATH, str(note_id), f"image_idx.jpg")` with the
media root passed explicitly. -/
def imageFilePath (root note_id : String) (idx : ℕ) : String :=
  root ++ "/" ++ note_id ++ "/image_" ++ toString idx ++ ".jpg"

/-- The `for try_url in urls_to_try` loop: issue a GET per URL until the
first success, which writes `filepath` and breaks.  Returns the URLs
requested and the files written. -/
def tryUrls (env : DownloadEnv) (filepath : String) :
    List String → List String × List String
  | [] => ([], [])
  | u :: rest =>
      if env.fetchOk u then ([u], [filepath])
      else
        let r := tryUrls env filepath rest
        (u :: r.1, r.2)

/-- Handling of one `image_list` entry: skip everything when a valid file
already exists (media_queue.py lines 278-279, sync_service.py lines
1835-1837), else walk the fallback URLs.  `uf` is the fallback-URL builder
of the respective variant. -/
def downloadOneImage (env : DownloadEnv) (uf : String → List String)
    (root note_id : String) (idx : ℕ) (img_url : String) :
    List String × List String :=
  let filepath := imageFilePath root note_id idx
  if env.fileExists filepath then ([], [])
  else tryUrls env filepath (uf img_url)

/-- Embeds `for idx, img_url in enumerate(image_list)`: process every entry,
accumulating requests and written files. -/
def downloadImagesLoop (env : DownloadEnv) (uf : String → List String)
    (root note_id : String) : ℕ → List String → List String × List String
  | _, [] => ([], [])
  | idx, u :: rest =>
      let r1 := downloadOneImage env uf root note_id idx u
      let r2 := downloadImagesLoop env uf root note_id (idx + 1) rest
      (r1.1 ++ r2.1, r1.2 ++ r2.2)

/-- Shared shape of both full-media download routines: iterate the image
list only when it is truthy; nothing else in `note_data` is fetched (the
video branch of sync_service.py lines 1915-1942 is commented out and the
live line 1941 only logs). -/
def doAllMediaWith (env : DownloadEnv) (uf : String → List String)
    (root note_id : String) (nd : MediaNoteData) : List String × List String :=
  match nd.image_list with
  | some l => if l.isEmpty then ([], []) else downloadImagesLoop env uf root note_id 0 l
  | none => ([], [])

/-- Embeds `MediaDownloadQueue._do_download_all_media` (media_queue.py lines
243-308). -/
def doDownloadAllMedia (env : DownloadEnv) (root note_id : String)
    (nd : MediaNoteData) : List String × List String :=
  doAllMediaWith env urlsToTryQueue root note_id nd

/-- Embeds `SyncService._download_all_media` (sync_service.py lines 1876-1950),
which delegates each image to `_download_single_image`. -/
def downloadAllMediaService (env : DownloadEnv) (root note_id : String)
    (nd : MediaNoteData) : List String × List String :=
  doAllMediaWith env urlsToTrySingle root note_id nd

lemma tryUrls_requests (env : DownloadEnv) (fp : String) (urls : List String) :
    ∀ r ∈ (tryUrls env fp urls).1, r ∈ urls := by
  induction urls with
  | nil => simp [tryUrls]
  | cons u rest ih =>
    by_cases hu : env.fetchOk u <;> simp only [tryUrls, hu, if_true, if_false]
    · simp
    · intro r hr
      rcases List.mem_cons.1 hr with h | h
      · simp [h]
      · exact List.mem_cons_of_mem _ (ih r h)

lemma tryUrls_writes (env : DownloadEnv) (fp : String) (urls : List String) :
    ∀ f ∈ (tryUrls env fp urls).2, f = fp := by
  induction urls with
  | nil => simp [tryUrls]
  | cons u rest ih =>
    by_cases hu : env.fetchOk u <;> simp only [tryUrls, hu, if_true, if_false]
    · simp
    · exact ih

lemma downloadOneImage_requests (env : DownloadEnv) (uf : String → List String)
    (root nid : String) (idx : ℕ) (u : String) :
    ∀ r ∈ (downloadOneImage env uf root nid idx u).1, r ∈ uf u := by
  by_cases h : env.fileExists (imageFilePath root nid idx)
  · simp [downloadOneImage, h]
  · simpa [downloadOneImage, h] using
      tryUrls_requests env (imageFilePath root nid idx) (uf u)

lemma downloadOneImage_writes (env : DownloadEnv) (uf : String → List String)
    (root nid : String) (idx : ℕ) (u : String) :
    ∀ f ∈ (downloadOneImage env uf root nid idx u).2,
      f = imageFilePath root nid idx := by
  by_cases h : env.fileExists (imageFilePath root nid idx)
  · simp [downloadOneImage, h]
  · simpa [downloadOneImage, h] using
      tryUrls_writes env (imageFilePath root nid idx) (uf u)

lemma loop_requests (env : DownloadEnv) (uf : String → List String)
    (root nid : String) (l : List String) :
    ∀ idx : ℕ, ∀ r ∈ (downloadImagesLoop env uf root nid idx l).1,
      ∃ u ∈ l, r ∈ uf u := by
  induction l with
  | nil => intro idx r hr; simp [downloadImagesLoop] at hr
  | cons u rest ih =>
    intro idx r hr
    rw [downloadImagesLoop] at hr
    rcases List.mem_append.1 hr with h | h
    · exact ⟨u, List.mem_cons_self u rest, downloadOneImage_requests env uf root nid idx u r h⟩
    · obtain ⟨w, hw1, hw2⟩ := ih (idx + 1) r h
      exact ⟨w, List.mem_cons_of_mem _ hw1, hw2⟩

lemma loop_writes (env : DownloadEnv) (uf : String → List String)
    (root nid : String) (l : List String) :
    ∀ idx : ℕ, ∀ f ∈ (downloadImagesLoop env uf root nid idx l).2,
      ∃ j : ℕ, idx ≤ j ∧ j < idx + l.length ∧ f = imageFilePath root nid j := by
  induction l with
  | nil => intro idx f hf; simp [downloadImagesLoop] at hf
  | cons u rest ih =>
    intro idx f hf
    rw [downloadImagesLoop] at hf
    rcases List.mem_append.1 hf with h | h
    · exact ⟨idx, le_refl idx, by simp, downloadOneImage_writes env uf root nid idx u f h⟩
    · obtain ⟨j, hj1, hj2, hj3⟩ := ih (idx + 1) f h
      exact ⟨j, by omega, by simp only [List.length_cons]; omega, hj3⟩

lemma allMediaWith_requests (env : DownloadEnv) (uf : String → List String)
    (root nid : String) (nd : MediaNoteData) :
    ∀ r ∈ (doAllMediaWith env uf root nid nd).1,
      ∃ img ∈ nd.image_list.getD [], r ∈ uf img := by
  unfold doAllMediaWith
  cases h : nd.image_list with
  | none => simp
  | some l =>
    by_cases he : l.isEmpty
    · simp [he]
    · simp only [he, if_false, Option.getD_some]
      exact loop_requests env uf root nid l 0

lemma allMediaWith_writes (env : DownloadEnv) (uf : String → List String)
    (root nid : String) (nd : MediaNoteData) :
    ∀ f ∈ (doAllMediaWith env uf root nid nd).2,
      ∃ idx : ℕ, idx < (nd.image_list.getD []).length ∧
        f = imageFilePath root nid idx := by
  unfold doAllMediaWith
  cases h : nd.image_list with
  | none => simp
  | some l =>
    by_cases he : l.isEmpty
    · simp [he]
    · simp only [he, if_false, Option.getD_some]
      intro f hf
      obtain ⟨j, hj1, hj2, hj3⟩ := loop_writes env uf root nid l 0 f hf
      exact ⟨j, by omega, hj3⟩

/-- Claim C8: the full-media download task fetches only entries of the
item's image list — every requested URL derives from an `image_list` entry
via the deterministic fallback rewrites, every written file is an
`image_idx.jpg` under the note's directory, and the whole run is invariant
under changing the item's `video_addr` and `note_type` (so no request is
ever issued for the video URL and no video file is written); this holds for
both the queue task and the sync-service variant. -/
theorem no_video_payload_download (env : DownloadEnv) (root note_id : String)
    (nd : MediaNoteData) (v t : Option String) :
    (∀ r ∈ (doDownloadAllMedia env root note_id nd).1,
        ∃ img ∈ nd.image_list.getD [], r ∈ urlsToTryQueue img) ∧
      (∀ f ∈ (doDownloadAllMedia env root note_id nd).2,
        ∃ idx : ℕ, idx < (nd.image_list.getD []).length ∧
          f = imageFilePath root note_id idx) ∧
      doDownloadAllMedia env root note_id
          { nd with video_addr := v, note_type := t } =
        doDownloadAllMedia env root note_id nd ∧
      (∀ r ∈ (downloadAllMediaService env root note_id nd).1,
        ∃ img ∈ nd.image_list.getD [], r ∈ urlsToTrySingle img) ∧
      (∀ f ∈ (downloadAllMediaService env root note_id nd).2,
        ∃ idx : ℕ, idx < (nd.image_list.getD []).length ∧
          f = imageFilePath root note_id idx) ∧
      downloadAllMediaService env root note_id
          { nd with video_addr := v, note_type := t } =
        downloadAllMediaService env root note_id nd :=
  ⟨allMediaWith_requests env urlsToTryQueue root note_id nd,
   allMediaWith_writes env urlsToTryQueue root note_id nd,
   rfl,
   allMediaWith_requests env urlsToTrySingle root note_id nd,
   allMediaWith_writes env urlsToTrySingle root note_id nd,
   rfl⟩

/-- A download environment with no cached files where every fetch succeeds. -/
def envAllOk : DownloadEnv :=
  { fileExists := fun _ => false, fetchOk := fun _ => true }

/-- A video note carrying one image and a video URL. -/
def sampleVideoNote : MediaNoteData :=
  { image_list := some ["http://img1"]
    video_addr := some "http://video-payload"
    note_type := some "video" }

/-- Witness for C8: in the all-succeed environment, the single request the
queue task makes for the sample video note derives from its image list. -/
theorem no_video_payload_download_witness :
    ∃ img ∈ sampleVideoNote.image_list.getD [],
      "http://img1" ∈ urlsToTryQueue img :=
  (no_video_payload_download envAllOk "media" "n1" sampleVideoNote none none).1
    "http://img1" (by decide)

/-- A task handed to the worker pool by a submit call.  A cover task records
whether a completion callback was attached; the callback can only ever be
invoked from inside a running cover task. -/
inductive SubmittedTask
  | cover (remote_url note_id : String) (has_callback : Bool)
  | media (note_id : String) (note_data : MediaNoteData)
  deriving DecidableEq

/-- State of `MediaDownloadQueue` (media_queue.py `__init__`): the live
futures (their done flag) and the `_stats` counters. -/
structure QueueState where
  futures : List Bool
  submitted : ℕ
  completed : ℕ
  failed : ℕ
  deriving DecidableEq

/-- Embeds `get_stats` (media_queue.py lines 164-179): the three counters plus
`pending`, the number of not-yet-done futures. -/
def get_stats (q : QueueState) : ℕ × ℕ × ℕ × ℕ :=
  (q.submitted, q.completed, q.failed, (q.futures.filter (fun d => !d)).length)

/-- Embeds `submit_cover_download` (media_queue.py lines 66-103):
`if not remote_url or not note_id: return`, else hand the task to the pool,
track the future and bump `submitted`.  Returns the new state together with
the tasks handed to the pool by this call. -/
def submit_cover_download (q : QueueState) (remote_url note_id : Option String)
    (has_callback : Bool) : QueueState × List SubmittedTask :=
  if !truthyStr remote_url || !truthyStr note_id then (q, [])
  else
    ({ q with futures := q.futures ++ [false], submitted := q.submitted + 1 },
     [SubmittedTask.cover (remote_url.getD "") (note_id.getD "") has_callback])

/-- Embeds `submit_media_download` (media_queue.py lines 105-132):
`if not note_id or not note_data: return`; `note_data = none` models a
`None` (or empty, equally falsy) dict. -/
def submit_media_download (q : QueueState) (note_id : Option String)
    (note_data : Option MediaNoteData) : QueueState × List SubmittedTask :=
  if !truthyStr note_id || note_data.isNone then (q, [])
  else
    ({ q with futures := q.futures ++ [false], submitted := q.submitted + 1 },
     [SubmittedTask.media (note_id.getD "") (note_data.getD ⟨none, none, none⟩)])

lemma truthyStr_none : truthyStr none = false := rfl

lemma truthyStr_blank : truthyStr (some "") = false := rfl

/-- Claim C10: a submit call with blank identifiers is a no-op —
`submit_cover_download` with an empty/None URL or note ID, and
`submit_media_download` with an empty/None note ID or None/empty note data,
hand no task to the pool (so the completion callback can never be invoked)
and leave the queue state, hence all four stats counters, unchanged. -/
theorem blank_submit_noop (q : QueueState) (url nid : Option String)
    (cb : Bool) (ndata : Option MediaNoteData) :
    ((url = none ∨ url = some "" ∨ nid = none ∨ nid = some "") →
        submit_cover_download q url nid cb = (q, []) ∧
          get_stats (submit_cover_download q url nid cb).1 = get_stats q) ∧
      ((nid = none ∨ nid = some "" ∨ ndata = none) →
        submit_media_download q nid ndata = (q, []) ∧
          get_stats (submit_media_download q nid ndata).1 = get_stats q) := by
  constructor
  · intro h
    have hq : submit_cover_download q url nid cb = (q, []) := by
      rcases h with h | h | h | h <;> subst h <;>
        simp [submit_cover_download, truthyStr_none, truthyStr_blank]
    exact ⟨hq, by rw [hq]⟩
  · intro h
    have hq : submit_media_download q nid ndata = (q, []) := by
      rcases h with h | h | h <;> subst h <;>
        simp [submit_media_download, truthyStr_none, truthyStr_blank]
    exact ⟨hq, by rw [hq]⟩

/-- Witness for C10: an empty-string URL with a valid note ID submits
nothing on an empty queue. -/
theorem blank_submit_noop_witness :
    submit_cover_download ⟨[], 0, 0, 0⟩ (some "") (some "n1") true =
      (⟨[], 0, 0, 0⟩, []) :=
  ((blank_submit_noop ⟨[], 0, 0, 0⟩ (some "") (some "n1") true none).1
    (Or.inr (Or.inl rfl))).1

end MediaQueue

end Xhs
